import Mathlib

set_option maxRecDepth 4000

/-!
Verification of the cooperative orchestration core of the neno-ia-app
backend, shallowly embedded from
`backend/services/cooperative_orchestrator.py` and
`backend/services/llm_service.py`.

Modelling conventions.  Python strings are Lean `String` (sequences of
code points, matching the Python `len`); `str.lower()` is modelled on the
ASCII range (`Char.toLower`), faithful for every complexity keyword and
every input used below; `str.split()` with no argument splits on runs of
whitespace and discards empty fields; `re.split("[.!?]+", s)` yields one
more field than the number of maximal runs of sentence-ending characters,
so `sentence_count` is `1 +` that run count.  The floating-point score
arithmetic is modelled exactly over `ℚ`; the coefficients 0.3, 0.1 and
0.5 are exact decimal literals in the source.  Provider adapters and the
meta-LLM calls are oracles passed as function parameters: an adapter call
either returns a result (`Except.ok`) or raises (`Except.error`).
-/

/-- Whitespace recognized by the Python `str.split()` (ASCII subset; the
keywords and the inputs used below contain no exotic whitespace). -/
def pythonIsSpace (c : Char) : Bool :=
  c == ' ' || c == '\t' || c == '\n' || c == '\r' || c == '\x0b' || c == '\x0c'

/-- Helper for `pythonSplit`: accumulates the current word (reversed). -/
def splitWsAux : List Char → List Char → List (List Char)
  | [], acc => if acc.isEmpty then [] else [acc.reverse]
  | c :: cs, acc =>
    if pythonIsSpace c then
      if acc.isEmpty then splitWsAux cs [] else acc.reverse :: splitWsAux cs []
    else splitWsAux cs (c :: acc)

/-- Python `s.split()`: split on whitespace runs, dropping empty fields. -/
def pythonSplit (s : String) : List String :=
  (splitWsAux s.toList []).map String.mk

/-- Python `s.lower()` restricted to ASCII letters. -/
def strLower (s : String) : String :=
  String.mk (s.toList.map Char.toLower)

/-- Does `needle` occur at the head of `haystack`? -/
def listStartsWith : List Char → List Char → Bool
  | [], _ => true
  | _ :: _, [] => false
  | a :: as, b :: bs => a == b && listStartsWith as bs

/-- The Python substring test `needle in haystack`. -/
def containsSubstr (needle : List Char) : List Char → Bool
  | [] => needle.isEmpty
  | c :: cs => listStartsWith needle (c :: cs) || containsSubstr needle cs

/-- A character of the regex class `[.!?]`. -/
def isSentenceEnd (c : Char) : Bool :=
  c == '.' || c == '!' || c == '?'

/-- Number of maximal runs of sentence-ending characters; the boolean
tracks whether the scan is currently inside such a run. -/
def countRuns : List Char → Bool → Nat
  | [], _ => 0
  | c :: cs, inRun =>
    if isSentenceEnd c then (if inRun then 0 else 1) + countRuns cs true
    else countRuns cs false

/-- `len(prompt.split())` in `analyze_complexity`. -/
def word_count (prompt : String) : Nat :=
  (pythonSplit prompt).length

/-- `len(prompt)` in `analyze_complexity`. -/
def char_count (prompt : String) : Nat :=
  prompt.length

/-- `len(re.split("[.!?]+", prompt))` in `analyze_complexity`. -/
def sentence_count (prompt : String) : Nat :=
  1 + countRuns prompt.toList false

/-- The fixed keyword lexicon of `analyze_complexity`. -/
def complexity_keywords : List String :=
  ["ebook", "livro", "100 páginas", "longo", "extenso", "completo",
   "detalhado", "profundo", "pesado", "complexo", "capítulos",
   "seções", "tópicos múltiplos", "tutorial completo"]

/-- `any(keyword in prompt.lower() for keyword in complexity_keywords)`. -/
def has_complex_keywords (prompt : String) : Bool :=
  complexity_keywords.any fun kw =>
    containsSubstr kw.toList (strLower prompt).toList

/-- `self.complexity_threshold = 500` in `CooperativeOrchestrator.__init__`. -/
def complexity_threshold : ℚ := 500

/-- `self.max_workers = 3` in `CooperativeOrchestrator.__init__`. -/
def max_workers : Nat := 3

/-- The complexity score computed by `analyze_complexity`, exactly as in
the source: `(word_count * 0.3) + (char_count * 0.1) +
(sentence_count * 0.5) + (100 if has_complex_keywords else 0)`. -/
def complexity_score (prompt : String) : ℚ :=
  (word_count prompt : ℚ) * 0.3 +
  (char_count prompt : ℚ) * 0.1 +
  (sentence_count prompt : ℚ) * 0.5 +
  (if has_complex_keywords prompt then 100 else 0)

/-- `needs_cooperation = complexity_score > self.complexity_threshold`. -/
def needs_cooperation (prompt : String) : Bool :=
  complexity_score prompt > complexity_threshold

/-- `min(math.ceil(complexity_score / 300), self.max_workers)`. -/
def recommended_workers (prompt : String) : ℤ :=
  min ⌈complexity_score prompt / 300⌉ (max_workers : ℤ)

/-- A non-streaming provider response; `content` is the text payload and
`combined_raw` the degraded-combination flag that `_combine_results`
attaches to its raw-concatenation fallback (absent, i.e. `false`, on
every response produced by a provider adapter). -/
structure LLMResult where
  content : String
  combined_raw : Bool
deriving DecidableEq

/-- One role-tagged fragment of a divided prompt, as produced by
`divide_task` and `_simple_task_division`. -/
structure Subtask where
  task : String
  role : String
  order : Option Nat
  depends_on : Option String
deriving DecidableEq

/-- The per-subtask record collected by `_execute_parallel_blocking`:
either `{task, result, success: True}` or `{task, error, success: False}`. -/
structure SubtaskResult where
  task : Subtask
  result : Option LLMResult
  success : Bool
  error : Option String
deriving DecidableEq

/-! ## Provider Registry (`LLMService.get_response`, lines 127-151)

An adapter call is an `Except String LLMResult`; the registry state is an
association list from provider name to the outcome of calling that
adapter, plus the priority list.  The cooperative branch of
`get_response` (lines 105-125) is orthogonal to provider selection and is
modelled separately by `execute_cooperative_task`; the definitions below
embed the provider-selection logic that runs when cooperation is not
triggered. -/

/-- The priority-ordered fallback loop of `get_response`: try each name in
order, collecting error strings; if every attempt fails, raise the
aggregated error.  A name absent from the registry raises `KeyError`
inside the `try`, which the `except` clause records like any failure. -/
def tryPriority (providers : List (String × Except String LLMResult)) :
    List String → List String → Except String LLMResult
  | [], errors =>
    Except.error ("Todos os provedores de IA falharam:\n" ++
      String.intercalate "\n" errors.reverse)
  | name :: rest, errors =>
    match providers.lookup name with
    | some (Except.ok r) => Except.ok r
    | some (Except.error e) => tryPriority providers rest ((name ++ ": " ++ e) :: errors)
    | none => tryPriority providers rest ((name ++ ": KeyError") :: errors)

/-- `LLMService.get_response` provider selection: raise if no provider is
configured; if `provider` is explicit (not `"auto"`) and registered, try
it, returning its result on success and falling through on failure; then
run the priority-ordered fallback loop. -/
def get_response (providers : List (String × Except String LLMResult))
    (priority : List String) (provider : String) : Except String LLMResult :=
  if providers.isEmpty then Except.error "Nenhum provedor de IA configurado"
  else
    match (if provider == "auto" then none else providers.lookup provider) with
    | some (Except.ok r) => Except.ok r
    | _ => tryPriority providers priority []

/-! ## Task Divider (`divide_task`, `_simple_task_division`) -/

/-- The meta-prompt sent to a provider by `divide_task`. -/
def division_prompt (prompt : String) (num_workers : Nat) : String :=
  "\n        Divida a seguinte tarefa em " ++ toString num_workers ++
  " partes coerentes e complementares:\n        \n        TAREFA PRINCIPAL:\n        " ++
  prompt ++
  "\n        \n        Forneça as " ++ toString num_workers ++
  " subtarefas em formato JSON, cada uma sendo um objeto com:\n" ++
  "        - task: a descrição da subtarefa\n" ++
  "        - role: o papel específico (pesquisador, escritor, revisor, etc.)\n" ++
  "        - depends_on: se depende de outra subtarefa (opcional)\n        "

/-- The fixed role list of `_simple_task_division`. -/
def simple_roles : List String := ["pesquisador", "escritor", "revisor"]

/-- The word slice `keywords[start_idx:end_idx]` taken for worker `i` in
`_simple_task_division`: `chunk_size = len(keywords) // num_workers`,
`start_idx = i * chunk_size`, and the final worker takes the slice to the
end of the list. -/
def simple_chunk (keywords : List String) (num_workers i : Nat) : List String :=
  let chunk_size := keywords.length / num_workers
  let start_idx := i * chunk_size
  if i < num_workers - 1 then (keywords.drop start_idx).take chunk_size
  else keywords.drop start_idx

/-- The subtask built for worker `i` by `_simple_task_division`:
`{"task": f"{chunk} - parte {i+1} de {num_workers}",
"role": roles[i % 3], "order": i + 1}`. -/
def simple_subtask (keywords : List String) (num_workers i : Nat) : Subtask :=
  ⟨String.intercalate " " (simple_chunk keywords num_workers i) ++
     " - parte " ++ toString (i + 1) ++ " de " ++ toString num_workers,
   simple_roles.getD (i % 3) "",
   some (i + 1), none⟩

/-- `_simple_task_division`: the deterministic fallback split over the
lowercased word list of the prompt. -/
def _simple_task_division (prompt : String) (num_workers : Nat) : List Subtask :=
  (List.range num_workers).map
    (simple_subtask (pythonSplit (strLower prompt)) num_workers)

/-- `divide_task`.  The LLM-assisted path (the provider call, the regex
search for a JSON array and `json.loads`) is abstracted as an oracle
returning the parsed subtask list, or `none` when the call raises or no
JSON array is found; the result is truncated to `num_workers`, and on
oracle failure the deterministic fallback runs.  With `num_workers == 1`
the function returns `[{"task": prompt, "role": "primary"}]` before any
oracle consultation. -/
def divide_task (division_oracle : String → Option (List Subtask))
    (prompt : String) (num_workers : Nat) : List Subtask :=
  if num_workers == 1 then [⟨prompt, "primary", none, none⟩]
  else
    match division_oracle (division_prompt prompt num_workers) with
    | some subtasks => subtasks.take num_workers
    | none => _simple_task_division prompt num_workers

/-! ## Result Combiner (`_combine_results`) -/

/-- The labeled concatenation built by `_combine_results`:
`"\n\n".join(f"## PARTE {i+1} - {role}\n{content}" ...)` over the
successful results in list order. -/
def combined_content (successful_results : List SubtaskResult) : String :=
  String.intercalate "\n\n" (successful_results.enum.map fun p =>
    "## PARTE " ++ toString (p.1 + 1) ++ " - " ++ p.2.task.role ++ "\n" ++
      (p.2.result.getD ⟨"", false⟩).content)

/-- The synthesis meta-prompt of `_combine_results`. -/
def combine_prompt (original_prompt partial_results : String) : String :=
  "\n        Combine os seguintes resultados parciais em uma resposta coesa e completa:\n" ++
  "        \n        PROMPT ORIGINAL:\n        " ++ original_prompt ++
  "\n        \n        RESULTADOS PARCIAIS:\n        " ++ partial_results ++
  "\n        \n        Forneça uma resposta final integrada que una todos os aspectos de forma harmoniosa.\n        "

/-- `_combine_results`: filter to the successful results; raise when none
succeeded; return a single success unchanged; otherwise issue the
synthesis call and, if it raises, fall back to the raw concatenation
flagged `combined_raw=True`. -/
def _combine_results (llm : String → Except String LLMResult)
    (results : List SubtaskResult) (original_prompt : String) :
    Except String LLMResult :=
  match results.filter (fun r => r.success) with
  | [] => Except.error "Todas as subtasks falharam"
  | [r] => Except.ok (r.result.getD ⟨"", false⟩)
  | r1 :: r2 :: rest =>
    let cc := combined_content (r1 :: r2 :: rest)
    match llm (combine_prompt original_prompt cc) with
    | Except.ok final => Except.ok final
    | Except.error _ => Except.ok ⟨cc, true⟩

/-! ## Cooperative Executor (`execute_cooperative_task`) -/

/-- The top-level value of the orchestration pipeline: either the wrapped
single-provider response or the cooperative record. -/
inductive CoopResult where
  | single : LLMResult → CoopResult
  | cooperative : Nat → List Subtask → LLMResult → CoopResult
deriving DecidableEq

/-- `_execute_parallel_blocking`: each subtask independently calls the
registry; a failure is recorded as `{success: False, error}` without
aborting the batch.  (The `as_completed` collection order is
nondeterministic in the source; it is modelled as submission order, which
no claim below depends on.) -/
def _execute_parallel_blocking (llm : String → Except String LLMResult)
    (subtasks : List Subtask) : List SubtaskResult :=
  subtasks.map fun t =>
    match llm t.task with
    | Except.ok r => ⟨t, some r, true, none⟩
    | Except.error e => ⟨t, none, false, some e⟩

/-- The `AttributeError` raised when the streaming branch of
`_execute_parallel` calls `self._execute_sequential_streaming`: no method
of that name is defined anywhere in the repository. -/
def attributeErrorMsg : String :=
  "AttributeError: CooperativeOrchestrator has no attribute _execute_sequential_streaming"

/-- `_execute_parallel`: the `stream=True` branch calls the undefined
method `_execute_sequential_streaming` and therefore raises
`AttributeError`; the non-streaming branch runs the blocking pool. -/
def _execute_parallel (llm : String → Except String LLMResult)
    (subtasks : List Subtask) (stream : Bool) :
    Except String (List SubtaskResult) :=
  if stream then Except.error attributeErrorMsg
  else Except.ok (_execute_parallel_blocking llm subtasks)

/-- `execute_cooperative_task`: analyze complexity; below threshold,
delegate to a single provider call; otherwise divide, execute the
subtasks, and combine.  Exceptions propagate as `Except.error`. -/
def execute_cooperative_task (llm : String → Except String LLMResult)
    (division_oracle : String → Option (List Subtask))
    (prompt : String) (stream : Bool) : Except String CoopResult :=
  if needs_cooperation prompt then
    let num_workers := (recommended_workers prompt).toNat
    let subtasks := divide_task division_oracle prompt num_workers
    match _execute_parallel llm subtasks stream with
    | Except.error e => Except.error e
    | Except.ok results =>
      match _combine_results llm results prompt with
      | Except.error e => Except.error e
      | Except.ok final =>
        Except.ok (CoopResult.cooperative num_workers subtasks final)
  else
    match llm prompt with
    | Except.ok r => Except.ok (CoopResult.single r)
    | Except.error e => Except.error e

/-! ## Sanity checks on small inputs -/

example : word_count "Olá, como você está?" = 4 := by decide
example : sentence_count "a.b" = 2 := by decide
example : sentence_count "a..b" = 2 := by decide
example : sentence_count "" = 1 := by decide
example : word_count "" = 0 := by decide
example : has_complex_keywords "Quero um EBOOK agora" = true := by decide
example : has_complex_keywords "nada demais" = false := by decide

/-! ## Splitting and run-counting lemmas -/

theorem splitWsAux_nonspace (w : List Char)
    (hw : ∀ c ∈ w, pythonIsSpace c = false) :
    ∀ (rest acc : List Char),
      splitWsAux (w ++ rest) acc = splitWsAux rest (w.reverse ++ acc) := by
  induction w with
  | nil => intro rest acc; simp
  | cons c w ih =>
    intro rest acc
    have hc : pythonIsSpace c = false := hw c (by simp)
    have hw' : ∀ c' ∈ w, pythonIsSpace c' = false := fun c' h => hw c' (by simp [h])
    simp only [List.cons_append, splitWsAux, hc, Bool.false_eq_true, if_false,
      List.append_eq]
    rw [ih hw' rest (c :: acc)]
    simp [List.append_assoc]

theorem splitWsAux_space (rest acc : List Char) :
    splitWsAux (' ' :: rest) acc =
      if acc.isEmpty then splitWsAux rest [] else acc.reverse :: splitWsAux rest [] := by
  simp [splitWsAux, pythonIsSpace]

theorem splitWsAux_word (w rest : List Char)
    (hw : ∀ c ∈ w, pythonIsSpace c = false) (hne : w ≠ []) :
    splitWsAux (w ++ ' ' :: rest) [] = w :: splitWsAux rest [] := by
  rw [splitWsAux_nonspace w hw (' ' :: rest) [], splitWsAux_space]
  have h1 : (w.reverse ++ ([] : List Char)).isEmpty = false := by
    cases w with
    | nil => exact absurd rfl hne
    | cons c w => simp
  rw [h1]
  simp

theorem splitWsAux_units (u : List Char)
    (hu : ∀ c ∈ u, pythonIsSpace c = false) (hne : u ≠ []) :
    ∀ (n : Nat) (rest : List Char),
      splitWsAux ((List.replicate n (u ++ [' '])).flatten ++ rest) [] =
        List.replicate n u ++ splitWsAux rest [] := by
  intro n
  induction n with
  | zero => intro rest; simp
  | succ n ih =>
    intro rest
    rw [List.replicate_succ, List.flatten_cons, List.append_assoc, List.append_assoc,
      List.singleton_append, splitWsAux_word u _ hu hne, ih rest]
    simp [List.replicate_succ]

theorem splitWsAux_lastWord (w : List Char)
    (hw : ∀ c ∈ w, pythonIsSpace c = false) (hne : w ≠ []) :
    splitWsAux w [] = [w] := by
  have h := splitWsAux_nonspace w hw [] []
  rw [List.append_nil] at h
  rw [h]
  have h1 : (w.reverse ++ ([] : List Char)).isEmpty = false := by
    cases w with
    | nil => exact absurd rfl hne
    | cons c w => simp
  simp only [splitWsAux, h1, Bool.false_eq_true, if_false]
  simp

/-- The run state after scanning `xs` starting from state `b`. -/
def runState (xs : List Char) (b : Bool) : Bool :=
  xs.foldl (fun _ c => isSentenceEnd c) b

theorem countRuns_cons (c : Char) (cs : List Char) (b : Bool) :
    countRuns (c :: cs) b =
      (if isSentenceEnd c then (if b then 0 else 1) else 0) +
        countRuns cs (isSentenceEnd c) := by
  by_cases h : isSentenceEnd c <;> simp [countRuns, h]

theorem countRuns_append (xs ys : List Char) :
    ∀ b, countRuns (xs ++ ys) b = countRuns xs b + countRuns ys (runState xs b) := by
  induction xs with
  | nil => intro b; simp [countRuns, runState]
  | cons c cs ih =>
    intro b
    rw [List.cons_append, countRuns_cons, ih (isSentenceEnd c), countRuns_cons]
    have : runState (c :: cs) b = runState cs (isSentenceEnd c) := by
      simp [runState, List.foldl_cons]
    rw [this, Nat.add_assoc]

theorem countRuns_flatten_replicate (u : List Char)
    (h : ∀ b, runState u b = false) :
    ∀ (n : Nat) (rest : List Char),
      countRuns ((List.replicate n u).flatten ++ rest) false =
        n * countRuns u false + countRuns rest false := by
  intro n
  induction n with
  | zero => intro rest; simp
  | succ n ih =>
    intro rest
    rw [List.replicate_succ, List.flatten_cons, List.append_assoc,
      countRuns_append, h false, ih rest, Nat.succ_mul]
    ring

/-! ## Concrete prompts

`bigPrompt` has exactly 200 words, contains the keywords "ebook" and
"capítulos", and scores 756; `smallPrompt` also has exactly 200 words and
both keywords but scores only 201.6. -/

/-- The character list of `bigPrompt`: the words "ebook" and "capítulos"
followed by 198 copies of the word "a.a.a.a.a", space-separated. -/
def bigPromptList : List Char :=
  "ebook ".toList ++ ("capítulos ".toList ++
    ((List.replicate 197 "a.a.a.a.a ".toList).flatten ++ "a.a.a.a.a".toList))

def bigPrompt : String := String.mk bigPromptList

/-- The character list of `smallPrompt`: the words "ebook" and
"capítulos" followed by 198 copies of the word "a", space-separated. -/
def smallPromptList : List Char :=
  "ebook ".toList ++ ("capítulos ".toList ++
    ((List.replicate 197 "a ".toList).flatten ++ "a".toList))

def smallPrompt : String := String.mk smallPromptList

theorem pythonSplit_bigPrompt :
    pythonSplit bigPrompt =
      "ebook" :: "capítulos" ::
        (List.replicate 197 "a.a.a.a.a" ++ ["a.a.a.a.a"]) := by
  have h1 : "ebook ".toList = "ebook".toList ++ [' '] := by decide
  have h2 : "capítulos ".toList = "capítulos".toList ++ [' '] := by decide
  have h3 : "a.a.a.a.a ".toList = "a.a.a.a.a".toList ++ [' '] := by decide
  have hsplit : splitWsAux bigPromptList [] =
      "ebook".toList :: "capítulos".toList ::
        (List.replicate 197 "a.a.a.a.a".toList ++ ["a.a.a.a.a".toList]) := by
    rw [show bigPromptList =
        "ebook".toList ++ ' ' :: ("capítulos".toList ++ ' ' ::
          ((List.replicate 197 ("a.a.a.a.a".toList ++ [' '])).flatten ++
            "a.a.a.a.a".toList)) by
      rw [bigPromptList, h1, h2, h3, List.append_assoc, List.append_assoc,
        List.singleton_append, List.singleton_append]]
    rw [splitWsAux_word _ _ (by decide) (by decide),
      splitWsAux_word _ _ (by decide) (by decide),
      splitWsAux_units _ (by decide) (by decide),
      splitWsAux_lastWord _ (by decide) (by decide)]
  have hlist : bigPrompt.toList = bigPromptList := rfl
  rw [pythonSplit, hlist, hsplit]
  simp [List.map_replicate]

theorem pythonSplit_smallPrompt :
    pythonSplit smallPrompt =
      "ebook" :: "capítulos" :: (List.replicate 197 "a" ++ ["a"]) := by
  have h1 : "ebook ".toList = "ebook".toList ++ [' '] := by decide
  have h2 : "capítulos ".toList = "capítulos".toList ++ [' '] := by decide
  have h3 : "a ".toList = "a".toList ++ [' '] := by decide
  have hsplit : splitWsAux smallPromptList [] =
      "ebook".toList :: "capítulos".toList ::
        (List.replicate 197 "a".toList ++ ["a".toList]) := by
    rw [show smallPromptList =
        "ebook".toList ++ ' ' :: ("capítulos".toList ++ ' ' ::
          ((List.replicate 197 ("a".toList ++ [' '])).flatten ++ "a".toList)) by
      simp [smallPromptList, h1, h2, h3, List.append_assoc]]
    rw [splitWsAux_word _ _ (by decide) (by decide),
      splitWsAux_word _ _ (by decide) (by decide),
      splitWsAux_units _ (by decide) (by decide),
      splitWsAux_lastWord _ (by decide) (by decide)]
  have hlist : smallPrompt.toList = smallPromptList := rfl
  rw [pythonSplit, hlist, hsplit]
  simp [List.map_replicate]

theorem word_count_bigPrompt : word_count bigPrompt = 200 := by
  rw [word_count, pythonSplit_bigPrompt]
  simp

theorem word_count_smallPrompt : word_count smallPrompt = 200 := by
  rw [word_count, pythonSplit_smallPrompt]
  simp

theorem char_count_bigPrompt : char_count bigPrompt = 1995 := by
  have h0 : char_count bigPrompt = bigPromptList.length := rfl
  have h1 : ("ebook ".toList).length = 6 := by decide
  have h2 : ("capítulos ".toList).length = 10 := by decide
  have h3 : ("a.a.a.a.a ".toList).length = 10 := by decide
  have h4 : ("a.a.a.a.a".toList).length = 9 := by decide
  rw [h0, bigPromptList]
  simp only [List.length_append, List.length_flatten, List.map_replicate]
  rw [h1, h2, h3, h4, List.sum_replicate, smul_eq_mul]

theorem char_count_smallPrompt : char_count smallPrompt = 411 := by
  have h0 : char_count smallPrompt = smallPromptList.length := rfl
  have h1 : ("ebook ".toList).length = 6 := by decide
  have h2 : ("capítulos ".toList).length = 10 := by decide
  have h3 : ("a ".toList).length = 2 := by decide
  have h4 : ("a".toList).length = 1 := by decide
  rw [h0, smallPromptList]
  simp only [List.length_append, List.length_flatten, List.map_replicate]
  rw [h1, h2, h3, h4, List.sum_replicate, smul_eq_mul]

theorem sentence_count_bigPrompt : sentence_count bigPrompt = 793 := by
  have hlist : bigPrompt.toList = bigPromptList := rfl
  rw [sentence_count, hlist, bigPromptList]
  rw [countRuns_append, countRuns_append]
  have h1 : countRuns "ebook ".toList false = 0 := by decide
  have h2 : runState "ebook ".toList false = false := by decide
  have h3 : countRuns "capítulos ".toList false = 0 := by decide
  have h4 : runState "capítulos ".toList false = false := by decide
  have h5 : ∀ b, runState "a.a.a.a.a ".toList b = false := by decide
  have h6 : countRuns "a.a.a.a.a ".toList false = 4 := by decide
  have h7 : countRuns "a.a.a.a.a".toList false = 4 := by decide
  rw [h2, h4, countRuns_flatten_replicate _ h5, h1, h3, h6, h7]

theorem sentence_count_smallPrompt : sentence_count smallPrompt = 1 := by
  have hlist : smallPrompt.toList = smallPromptList := rfl
  rw [sentence_count, hlist, smallPromptList]
  rw [countRuns_append, countRuns_append]
  have h1 : countRuns "ebook ".toList false = 0 := by decide
  have h2 : runState "ebook ".toList false = false := by decide
  have h3 : countRuns "capítulos ".toList false = 0 := by decide
  have h4 : runState "capítulos ".toList false = false := by decide
  have h5 : ∀ b, runState "a ".toList b = false := by decide
  have h6 : countRuns "a ".toList false = 0 := by decide
  have h7 : countRuns "a".toList false = 0 := by decide
  rw [h2, h4, countRuns_flatten_replicate _ h5, h1, h3, h6, h7]

theorem keywords_bigPrompt : has_complex_keywords bigPrompt = true := by decide

theorem keywords_smallPrompt : has_complex_keywords smallPrompt = true := by decide

theorem complexity_score_bigPrompt : complexity_score bigPrompt = 756 := by
  rw [complexity_score, word_count_bigPrompt, char_count_bigPrompt,
    sentence_count_bigPrompt, keywords_bigPrompt]
  norm_num

theorem complexity_score_smallPrompt : complexity_score smallPrompt = 1008/5 := by
  rw [complexity_score, word_count_smallPrompt, char_count_smallPrompt,
    sentence_count_smallPrompt, keywords_smallPrompt]
  norm_num

theorem needs_cooperation_bigPrompt : needs_cooperation bigPrompt = true := by
  rw [needs_cooperation]
  rw [complexity_score_bigPrompt]
  simp [complexity_threshold]
  norm_num

theorem needs_cooperation_smallPrompt : needs_cooperation smallPrompt = false := by
  rw [needs_cooperation]
  rw [complexity_score_smallPrompt]
  simp [complexity_threshold]
  norm_num

theorem recommended_workers_bigPrompt : recommended_workers bigPrompt = 3 := by
  rw [recommended_workers, complexity_score_bigPrompt]
  have hceil : ⌈(756 : ℚ) / 300⌉ = 3 := by
    rw [Int.ceil_eq_iff]
    norm_num
  rw [hceil]
  simp [max_workers]

/-! ## Slice partition lemmas for the deterministic fallback split -/

theorem flatten_map_range_slices (l : List String) (cs : Nat) :
    ∀ (m s : Nat),
      ((List.range m).map (fun i => (l.drop (s + i * cs)).take cs)).flatten ++
          l.drop (s + m * cs) = l.drop s := by
  intro m
  induction m with
  | zero => intro s; simp
  | succ m ih =>
    intro s
    rw [List.range_succ_eq_map, List.map_cons, List.map_map, List.flatten_cons]
    have hcomp : (List.range m).map
        ((fun i => (l.drop (s + i * cs)).take cs) ∘ Nat.succ) =
        (List.range m).map (fun i => (l.drop ((s + cs) + i * cs)).take cs) := by
      apply List.map_congr_left
      intro i _
      simp only [Function.comp]
      rw [show s + (i + 1) * cs = s + cs + i * cs by ring]
    rw [hcomp, List.append_assoc]
    have htail : s + (m + 1) * cs = (s + cs) + m * cs := by ring
    rw [htail, ih (s + cs)]
    rw [show s + 0 * cs = s by ring]
    rw [show l.drop (s + cs) = (l.drop s).drop cs by rw [List.drop_drop, Nat.add_comm]]
    exact List.take_append_drop cs (l.drop s)

theorem simple_chunks_flatten (l : List String) (num_workers : Nat)
    (h : 1 ≤ num_workers) :
    ((List.range num_workers).map (simple_chunk l num_workers)).flatten = l := by
  obtain ⟨k, rfl⟩ : ∃ k, num_workers = k + 1 := ⟨num_workers - 1, by omega⟩
  rw [List.range_succ, List.map_append, List.flatten_append]
  have hlast : simple_chunk l (k + 1) k = l.drop (k * (l.length / (k + 1))) := by
    simp [simple_chunk]
  have hmap : (List.range k).map (simple_chunk l (k + 1)) =
      (List.range k).map
        (fun i => (l.drop (0 + i * (l.length / (k + 1)))).take (l.length / (k + 1))) := by
    apply List.map_congr_left
    intro i hi
    have hik : i < k := List.mem_range.mp hi
    simp [simple_chunk, hik]
  have hstep := flatten_map_range_slices l (l.length / (k + 1)) k 0
  rw [Nat.zero_add] at hstep
  simp only [List.map_cons, List.map_nil, List.flatten_cons, List.flatten_nil,
    List.append_nil]
  rw [hmap, hlast, hstep]
  exact List.drop_zero l

/-! ## Claim theorems -/

/-- C1 (counterexample): the Provider Registry does fall back after an
explicit provider selection.  With "openai" registered and failing and
"groq" registered and succeeding, `get_response` with explicit
`provider="openai"` returns the groq result instead of raising, and with
the unregistered explicit name "mistral" it also returns the groq result
instead of raising immediately. -/
def providersC1 : List (String × Except String LLMResult) :=
  [("openai", Except.error "boom"), ("groq", Except.ok ⟨"resposta", false⟩)]

def priorityC1 : List String := ["openai", "groq"]

theorem explicit_provider_fallback_cex :
    providersC1.lookup "openai" = some (Except.error "boom") ∧
    get_response providersC1 priorityC1 "openai" = Except.ok ⟨"resposta", false⟩ ∧
    providersC1.lookup "mistral" = none ∧
    get_response providersC1 priorityC1 "mistral" = Except.ok ⟨"resposta", false⟩ :=
  ⟨rfl, rfl, rfl, rfl⟩

/-- C1 (amended): when the explicitly named provider is unregistered or
its call fails, `get_response` produces exactly the same outcome as a
`provider="auto"` call: it silently runs the priority-ordered fallback
loop, raising only if no provider is configured or every priority
provider fails. -/
theorem explicit_provider_falls_back
    (providers : List (String × Except String LLMResult))
    (priority : List String) (provider : String)
    (h : ((providers.lookup provider).getD (Except.error "")).isOk = false) :
    get_response providers priority provider =
      get_response providers priority "auto" := by
  rw [get_response, get_response]
  by_cases hp : providers.isEmpty
  · simp [hp]
  · simp only [hp, Bool.false_eq_true, if_false]
    by_cases ha : (provider == "auto") = true
    · simp [ha]
    · have ha' : (provider == "auto") = false := by
        cases hb : provider == "auto"
        · rfl
        · exact absurd hb ha
      cases hl : providers.lookup provider with
      | none => simp [ha', hl]
      | some o =>
        cases o with
        | ok r =>
          rw [hl] at h
          simp [Option.getD, Except.isOk, Except.toBool] at h
        | error e => simp [ha', hl]

theorem explicit_provider_falls_back_wit :
    ((providersC1.lookup "openai").getD (Except.error "")).isOk = false ∧
    get_response providersC1 priorityC1 "openai" =
      get_response providersC1 priorityC1 "auto" :=
  ⟨by decide, explicit_provider_falls_back providersC1 priorityC1 "openai" (by decide)⟩

/-- C2: with `stream=True` and a prompt that needs cooperation,
`execute_cooperative_task` does not execute the subtasks at all: the
streaming branch of `_execute_parallel` calls the undefined method
`_execute_sequential_streaming` and the call raises `AttributeError`
(the executor oracle and divider oracle are never reached). -/
theorem streaming_cooperative_attribute_error
    (llm : String → Except String LLMResult)
    (division_oracle : String → Option (List Subtask)) (prompt : String)
    (h : needs_cooperation prompt = true) :
    execute_cooperative_task llm division_oracle prompt true =
      Except.error attributeErrorMsg := by
  rw [execute_cooperative_task]
  simp [h, _execute_parallel]

theorem streaming_cooperative_attribute_error_wit :
    needs_cooperation bigPrompt = true ∧
    execute_cooperative_task (fun _ => Except.error "offline") (fun _ => none)
        bigPrompt true = Except.error attributeErrorMsg :=
  ⟨needs_cooperation_bigPrompt,
   streaming_cooperative_attribute_error (fun _ => Except.error "offline")
     (fun _ => none) bigPrompt needs_cooperation_bigPrompt⟩

/-- C3: for every prompt, `recommended_workers` lies in
`[1, max_workers]`; in particular it is never 0. -/
theorem recommended_workers_bounds (prompt : String) :
    1 ≤ recommended_workers prompt ∧
      recommended_workers prompt ≤ (max_workers : ℤ) := by
  constructor
  · apply le_min
    · have hs : (1 : ℚ) ≤ (sentence_count prompt : ℚ) := by
        have h1 : 1 ≤ sentence_count prompt := Nat.le_add_right 1 _
        exact_mod_cast h1
      have hw : (0 : ℚ) ≤ (word_count prompt : ℚ) := by positivity
      have hc : (0 : ℚ) ≤ (char_count prompt : ℚ) := by positivity
      have hk : (0 : ℚ) ≤ (if has_complex_keywords prompt then (100 : ℚ) else 0) := by
        split <;> norm_num
      have hpos : 0 < complexity_score prompt := by
        rw [complexity_score]
        nlinarith
      have hceil : 0 < ⌈complexity_score prompt / 300⌉ := by
        rw [Int.ceil_pos]
        exact div_pos hpos (by norm_num)
      omega
    · norm_num [max_workers]
  · exact min_le_right _ _

/-- C4: the complexity score is exactly
`0.3*word_count + 0.1*char_count + 0.5*sentence_count`, plus 100 exactly
when some complexity keyword occurs in the lowercased prompt, and
`needs_cooperation` holds exactly when the score strictly exceeds the
threshold 500. -/
theorem complexity_score_formula (prompt : String) :
    complexity_score prompt =
      0.3 * (word_count prompt : ℚ) + 0.1 * (char_count prompt : ℚ) +
        0.5 * (sentence_count prompt : ℚ) +
        (if has_complex_keywords prompt then 100 else 0) ∧
    (has_complex_keywords prompt = true ↔
      ∃ kw ∈ complexity_keywords,
        containsSubstr kw.toList (strLower prompt).toList = true) ∧
    (needs_cooperation prompt = true ↔ complexity_score prompt > 500) := by
  refine ⟨by rw [complexity_score]; ring, ?_, ?_⟩
  · simp [has_complex_keywords, List.any_eq_true]
  · simp [needs_cooperation, complexity_threshold]

/-- C5: `_combine_results` raises exactly when no subtask result
succeeded, and its outcome is a function of the successful results only
(replacing the input list by its success-filtered sublist changes
nothing). -/
theorem combine_results_success_spec
    (llm : String → Except String LLMResult) (original_prompt : String)
    (results : List SubtaskResult) :
    ((∃ e, _combine_results llm results original_prompt = Except.error e) ↔
      ∀ r ∈ results, r.success = false) ∧
    _combine_results llm results original_prompt =
      _combine_results llm (results.filter fun r => r.success) original_prompt := by
  constructor
  · have hnil : (results.filter (fun r => r.success) = []) ↔
        ∀ r ∈ results, r.success = false := by
      rw [List.filter_eq_nil_iff]
      simp
    rw [← hnil]
    cases hf : results.filter (fun r => r.success) with
    | nil => simp [_combine_results, hf]
    | cons a tail =>
      cases tail with
      | nil => simp [_combine_results, hf]
      | cons b t =>
        cases hl : llm (combine_prompt original_prompt
            (combined_content (a :: b :: t))) <;>
          simp [_combine_results, hf, hl]
  · have hff : (results.filter (fun r => r.success)).filter (fun r => r.success) =
        results.filter (fun r => r.success) := by
      simp [List.filter_filter]
    conv_rhs => rw [_combine_results, hff]
    rw [_combine_results]

/-- C6: when at least two subtask results succeed and the synthesis call
fails, `_combine_results` returns the raw role-labeled concatenation of
the successful partial outputs, in their original order, flagged
`combined_raw = true`. -/
theorem combine_results_raw_fallback
    (llm : String → Except String LLMResult) (original_prompt : String)
    (results : List SubtaskResult) (err : String)
    (hlen : 2 ≤ (results.filter fun r => r.success).length)
    (hfail : llm (combine_prompt original_prompt
        (combined_content (results.filter fun r => r.success))) =
      Except.error err) :
    _combine_results llm results original_prompt =
      Except.ok ⟨combined_content (results.filter fun r => r.success), true⟩ := by
  cases hf : results.filter (fun r => r.success) with
  | nil => rw [hf] at hlen; simp at hlen
  | cons a tail =>
    cases tail with
    | nil => rw [hf] at hlen; simp at hlen
    | cons b t =>
      rw [hf] at hfail
      simp [_combine_results, hf, hfail]

def witResults : List SubtaskResult :=
  [⟨⟨"parte um", "pesquisador", some 1, none⟩, some ⟨"conteudo um", false⟩, true, none⟩,
   ⟨⟨"parte falha", "revisor", some 3, none⟩, none, false, some "timeout"⟩,
   ⟨⟨"parte dois", "escritor", some 2, none⟩, some ⟨"conteudo dois", false⟩, true, none⟩]

theorem combine_results_raw_fallback_wit :
    2 ≤ (witResults.filter fun r => r.success).length ∧
    _combine_results (fun _ => Except.error "offline") witResults "tarefa" =
      Except.ok ⟨combined_content (witResults.filter fun r => r.success), true⟩ :=
  ⟨by decide,
   combine_results_raw_fallback (fun _ => Except.error "offline") "tarefa"
     witResults "offline" (by decide) rfl⟩

/-- C7 (counterexample): a 200-word prompt containing both "ebook" and
"capítulos" whose complexity score is only 201.6, so `needs_cooperation`
is false — the scenario does not hold of every such prompt. -/
theorem scenario200_low_score_cex :
    word_count smallPrompt = 200 ∧
    containsSubstr "ebook".toList smallPrompt.toList = true ∧
    containsSubstr "capítulos".toList smallPrompt.toList = true ∧
    complexity_score smallPrompt ≤ 500 ∧
    needs_cooperation smallPrompt = false :=
  ⟨word_count_smallPrompt, by decide, by decide,
   by rw [complexity_score_smallPrompt]; norm_num,
   needs_cooperation_smallPrompt⟩

/-- C7 (amended): there exists a 200-word prompt containing "ebook" and
"capítulos" (one with enough characters and sentences) whose score
exceeds 500, with `needs_cooperation = true` and
`recommended_workers = 3`. -/
theorem exists_prompt200_keywords_high_score :
    ∃ prompt : String,
      word_count prompt = 200 ∧
      containsSubstr "ebook".toList prompt.toList = true ∧
      containsSubstr "capítulos".toList prompt.toList = true ∧
      complexity_score prompt > 500 ∧
      needs_cooperation prompt = true ∧
      recommended_workers prompt = 3 :=
  ⟨bigPrompt, word_count_bigPrompt, by decide, by decide,
   by rw [complexity_score_bigPrompt]; norm_num,
   needs_cooperation_bigPrompt, recommended_workers_bigPrompt⟩

/-- C8: holding word, char and sentence counts equal, a prompt containing
at least one complexity keyword scores exactly 100 more than one
containing none, however many keywords it contains. -/
theorem keyword_adds_100 (p1 p2 : String)
    (hw : word_count p1 = word_count p2)
    (hc : char_count p1 = char_count p2)
    (hs : sentence_count p1 = sentence_count p2)
    (hk1 : has_complex_keywords p1 = true)
    (hk2 : has_complex_keywords p2 = false) :
    complexity_score p1 = complexity_score p2 + 100 := by
  rw [complexity_score, complexity_score, hw, hc, hs, hk1, hk2]
  norm_num

theorem keyword_adds_100_wit :
    complexity_score "ebook ." = complexity_score "abcde ." + 100 :=
  keyword_adds_100 "ebook ." "abcde ." (by decide) (by decide) (by decide)
    (by decide) (by decide)

/-- C9: `divide_task` with `num_workers = 1` returns the single subtask
`{"task": prompt, "role": "primary"}` with the prompt verbatim, for every
division oracle — in particular without consulting the oracle (no LLM
call). -/
theorem divide_task_single_worker
    (division_oracle : String → Option (List Subtask)) (prompt : String) :
    divide_task division_oracle prompt 1 = [⟨prompt, "primary", none, none⟩] := rfl

/-- C10: the deterministic fallback split returns exactly `num_workers`
subtasks; the word chunks, concatenated in list order, are exactly the
lowercased word list of the prompt (an order-preserving partition, no
word lost or duplicated); and the i-th subtask embeds the i-th chunk. -/
theorem simple_task_division_partition (prompt : String) (num_workers : Nat)
    (h : 1 ≤ num_workers) :
    (_simple_task_division prompt num_workers).length = num_workers ∧
    ((List.range num_workers).map
        (simple_chunk (pythonSplit (strLower prompt)) num_workers)).flatten =
      pythonSplit (strLower prompt) ∧
    ∀ i, i < num_workers →
      (_simple_task_division prompt num_workers).get? i =
        some (simple_subtask (pythonSplit (strLower prompt)) num_workers i) := by
  refine ⟨by simp [_simple_task_division], simple_chunks_flatten _ _ h, ?_⟩
  intro i hi
  rw [_simple_task_division, List.get?_map, List.get?_range hi]
  rfl

theorem simple_task_division_partition_wit :
    1 ≤ 3 ∧
    (_simple_task_division "Um ebook completo sobre física" 3).length = 3 ∧
    ((List.range 3).map
        (simple_chunk (pythonSplit (strLower "Um ebook completo sobre física")) 3)).flatten =
      pythonSplit (strLower "Um ebook completo sobre física") :=
  ⟨by decide,
   (simple_task_division_partition "Um ebook completo sobre física" 3 (by decide)).1,
   (simple_task_division_partition "Um ebook completo sobre física" 3 (by decide)).2.1⟩
